import Mathlib

set_option maxRecDepth 100000

/-!
Verification development for the langflow voice-mode core
(`src/backend/base/langflow/api/v1/voice_mode.py` and
`src/backend/base/langflow/utils/voice_utils.py`).

Bytes are modelled as `List Nat` (each entry one byte), PCM16 samples as
`Int`, and text as `String`.  Stateful coroutines are modelled as explicit
state-passing step functions; the external VAD classifier, the external
flow executor and the upstream/client sockets are modelled as parameters
and as lists of emitted messages respectively.
-/

namespace VoiceModeSpec

/-! ### Constants from `voice_utils.py` -/

def SAMPLE_RATE_24K : Nat := 24000

def VAD_SAMPLE_RATE_16K : Nat := 16000

def FRAME_DURATION_MS : Nat := 20

def BYTES_PER_SAMPLE : Nat := 2

def BYTES_PER_24K_FRAME : Nat := SAMPLE_RATE_24K * FRAME_DURATION_MS / 1000 * BYTES_PER_SAMPLE

def BYTES_PER_16K_FRAME : Nat := VAD_SAMPLE_RATE_16K * FRAME_DURATION_MS / 1000 * BYTES_PER_SAMPLE

/-! ### Resampler (`voice_utils.resample_24k_to_16k`)

`np.frombuffer(frame, dtype=np.int16)` reads consecutive little-endian
byte pairs as signed 16-bit samples. -/

def int16OfLeBytes (lo hi : Nat) : Int :=
  let u := lo % 256 + 256 * (hi % 256)
  if u < 32768 then (u : Int) else (u : Int) - 65536

def bytesToInt16 : List Nat → List Int
  | lo :: hi :: rest => int16OfLeBytes lo hi :: bytesToInt16 rest
  | _ => []

/-- Modelled from the spec: `scipy.signal.resample` (external library, not in
`src/`).  Only its output-length contract — the result has exactly `num`
samples — is used by any theorem below; the FFT-based floating-point sample
values are abstracted as nearest-neighbour picks. -/
def scipy_signal_resample (xs : List Int) (num : Nat) : List Int :=
  (List.range num).map fun i => xs.getD (i * xs.length / num) 0

/-- `np.rint(x).astype(np.int16)` on the integer abstraction: `rint` is the
identity on integers and `astype(np.int16)` wraps modulo 2^16. -/
def rintAstypeInt16 (x : Int) : Int :=
  (x + 32768) % 65536 - 32768

def int16ToLeBytes (x : Int) : List Nat :=
  let u := (x % 65536).toNat
  [u % 256, u / 256]

def int16sToBytes : List Int → List Nat
  | [] => []
  | x :: rest => int16ToLeBytes x ++ int16sToBytes rest

/-- `voice_utils.resample_24k_to_16k` (the active definition): converts the
byte frame to int16 samples, calls `resample(samples_24k, 320)` with a
hardcoded output sample count of 320, rounds, converts back to bytes. -/
def resample_24k_to_16k (frame_24k_bytes : List Nat) : List Nat :=
  let samples_24k := bytesToInt16 frame_24k_bytes
  let samples_16k := (scipy_signal_resample samples_24k 320).map rintAstypeInt16
  int16sToBytes samples_16k

/-! ### Text chunker (`sync_text_chunker`, and the identical fragment logic of
`text_chunker_with_timeout`) -/

def splitters : List Char :=
  ['.', ',', '?', '!', ';', ':', '—', '-', '(', ')', '[', ']', '}', ' ']

def isSplitter (c : Char) : Bool := splitters.contains c

/-- One loop iteration of `sync_text_chunker` for a received text fragment:
returns the new buffer and the list of chunks yielded.  Mirrors

```
if buffer and buffer[-1] in splitters: yield buffer + " "; buffer = text
elif text and text[0] in splitters: yield buffer + text[0] + " "; buffer = text[1:]
else: buffer += text
``` -/
def sync_text_chunker_step (buffer text : String) : String × List String :=
  if !buffer.isEmpty && isSplitter buffer.back then
    (text, [buffer ++ " "])
  else if !text.isEmpty && isSplitter text.front then
    (text.drop 1, [buffer ++ text.front.toString ++ " "])
  else
    (buffer ++ text, [])

/-- Inputs reaching the chunker loop body: a queue item carrying text, or a
`queue.Empty` timeout (`asyncio.TimeoutError` in the async variant). -/
inductive ChunkEvent where
  | fragment (text : String)
  | timeout

/-- Runs the `sync_text_chunker` loop over a list of events (none of which is
the `None` end-of-stream sentinel), returning the yielded chunks and the
final buffer. -/
def sync_text_chunker_process : List ChunkEvent → String → List String × String
  | [], buffer => ([], buffer)
  | ChunkEvent.timeout :: rest, buffer =>
      if buffer.isEmpty then
        sync_text_chunker_process rest buffer
      else
        let r := sync_text_chunker_process rest ""
        ((buffer ++ " ") :: r.1, r.2)
  | ChunkEvent.fragment t :: rest, buffer =>
      let s := sync_text_chunker_step buffer t
      let r := sync_text_chunker_process rest s.1
      (s.2 ++ r.1, r.2)

/-- A full `sync_text_chunker` run: the events followed by the `None`
end-of-stream sentinel.  On `None` the generator yields the non-empty buffer
once inside the loop (`if text is None: if buffer: yield buffer + " "; break`)
and — because `break` leaves the buffer untouched — once more from the
trailing `if buffer: yield buffer + " "` after the loop. -/
def sync_text_chunker_run (events : List ChunkEvent) : List String :=
  let r := sync_text_chunker_process events ""
  r.1 ++ (if r.2.isEmpty then [] else [r.2 ++ " ", r.2 ++ " "])

/-- The fragment sequence of the spec's chunker example. -/
def chunkerExampleEvents : List ChunkEvent :=
  [ChunkEvent.fragment "Hello", ChunkEvent.fragment ",",
   ChunkEvent.fragment " world", ChunkEvent.fragment "."]

/-! ### VAD monitor (`process_vad_audio` in `voice_mode.py`)

The external classifier (`resample_24k_to_16k` composed with
`webrtcvad.Vad.is_speech`, both inside the `try` block) is a parameter
`classify : List Nat → Option Bool`; `none` models the `except` branch
(the frame is logged and skipped via `continue`). -/

/-- The inner `while len(vad_audio_buffer) >= BYTES_PER_24K_FRAME` loop:
slices one frame at a time off the accumulator, classifies it, and on a
speech frame while `bot_speaking_flag[0]` is set sends `response.cancel`
and clears the flag.  Returns (leftover buffer, speaking flag, number of
`response.cancel` messages sent to the upstream session). -/
def vadDrain (classify : List Nat → Option Bool) (acc : List Nat) (speaking : Bool) :
    List Nat × Bool × Nat :=
  if h : BYTES_PER_24K_FRAME ≤ acc.length then
    let frame := acc.take BYTES_PER_24K_FRAME
    let rest := acc.drop BYTES_PER_24K_FRAME
    match classify frame with
    | none => vadDrain classify rest speaking
    | some false => vadDrain classify rest speaking
    | some true =>
        if speaking then
          let r := vadDrain classify rest false
          (r.1, r.2.1, r.2.2 + 1)
        else
          vadDrain classify rest speaking
  else
    (acc, speaking, 0)
termination_by acc.length
decreasing_by
  all_goals
    have hb : BYTES_PER_24K_FRAME = 960 := rfl
    simp only [List.length_drop]
    omega

/-- The leftover accumulator bytes after the drain loop. -/
def vadLeftover (acc : List Nat) : List Nat :=
  if h : BYTES_PER_24K_FRAME ≤ acc.length then
    vadLeftover (acc.drop BYTES_PER_24K_FRAME)
  else
    acc
termination_by acc.length
decreasing_by
  have hb : BYTES_PER_24K_FRAME = 960 := rfl
  simp only [List.length_drop]
  omega

/-- The frames sliced off by the drain loop, in order. -/
def vadFrames (acc : List Nat) : List (List Nat) :=
  if h : BYTES_PER_24K_FRAME ≤ acc.length then
    acc.take BYTES_PER_24K_FRAME :: vadFrames (acc.drop BYTES_PER_24K_FRAME)
  else
    []
termination_by acc.length
decreasing_by
  have hb : BYTES_PER_24K_FRAME = 960 := rfl
  simp only [List.length_drop]
  omega

/-- Whether any full frame in the accumulator is classified as speech. -/
def vadHasSpeech (classify : List Nat → Option Bool) (acc : List Nat) : Bool :=
  (vadFrames acc).any fun f => classify f == some true

/-- The per-session VAD state: the byte accumulator `vad_audio_buffer` and the
shared `bot_speaking_flag`. -/
structure VadState where
  vad_audio_buffer : List Nat
  bot_speaking_flag : Bool

/-- One pass of the `process_vad_audio` outer loop: take the next decoded
chunk from the VAD queue, extend the accumulator, run the drain loop.
Returns the new state and the number of `response.cancel` messages sent. -/
def process_vad_audio_step (classify : List Nat → Option Bool) (st : VadState)
    (raw_chunk_24k : List Nat) : VadState × Nat :=
  let r := vadDrain classify (st.vad_audio_buffer ++ raw_chunk_24k) st.bot_speaking_flag
  ({ vad_audio_buffer := r.1, bot_speaking_flag := r.2.1 }, r.2.2)

/-! ### JSON values and `json.loads` (Python standard library, external to
`src/`)

Modelled from the spec: the tool-call dispatcher parses the accumulated
argument buffer as JSON.  The model covers string and object values (the
forms the protocol exchanges) without escape sequences; any other input is
a parse error, as `json.loads` raises on malformed text. -/

inductive Json where
  | str : String → Json
  | obj : List (String × Json) → Json

def skipWs : List Char → List Char
  | [] => []
  | c :: rest =>
      if c == ' ' || c == '\n' || c == '\t' || c == '\r' then skipWs rest else c :: rest

def parseStrChars : List Char → Option (String × List Char)
  | [] => none
  | c :: rest =>
      if c == '"' then some ("", rest)
      else
        match parseStrChars rest with
        | some (s, r) => some (c.toString ++ s, r)
        | none => none

mutual

def parseValue : Nat → List Char → Except String (Json × List Char)
  | 0, _ => Except.error "Expecting value: depth limit"
  | fuel + 1, cs =>
      match skipWs cs with
      | '"' :: rest =>
          match parseStrChars rest with
          | some (s, r) => Except.ok (Json.str s, r)
          | none => Except.error "Unterminated string"
      | '{' :: rest =>
          match skipWs rest with
          | '}' :: r2 => Except.ok (Json.obj [], r2)
          | cs2 => parseMembers fuel cs2 []
      | _ => Except.error "Expecting value"

def parseMembers : Nat → List Char → List (String × Json) →
    Except String (Json × List Char)
  | 0, _, _ => Except.error "Expecting value: depth limit"
  | fuel + 1, cs, acc =>
      match skipWs cs with
      | '"' :: rest =>
          match parseStrChars rest with
          | some (key, r) =>
              match skipWs r with
              | ':' :: r2 =>
                  match parseValue fuel r2 with
                  | Except.ok (v, r3) =>
                      match skipWs r3 with
                      | ',' :: r4 => parseMembers fuel r4 (acc ++ [(key, v)])
                      | '}' :: r4 => Except.ok (Json.obj (acc ++ [(key, v)]), r4)
                      | _ => Except.error "Expecting delimiter"
                  | Except.error e => Except.error e
              | _ => Except.error "Expecting colon delimiter"
          | none => Except.error "Unterminated string"
      | _ => Except.error "Expecting property name"

end

def json_loads (s : String) : Except String Json :=
  match parseValue (s.length + 1) s.toList with
  | Except.ok (j, rest) =>
      if (skipWs rest).isEmpty then Except.ok j else Except.error "Extra data"
  | Except.error e => Except.error e

/-- Python `dict.get` on the parsed argument object. -/
def jsonGet (fields : List (String × Json)) (key : String) : Option Json :=
  match fields with
  | [] => none
  | (k, v) :: rest => if k == key then some v else jsonGet rest key

/-! ### Tool-call dispatcher (`handle_function_call` in `voice_mode.py`)

`build_flow` and the progress-event stream it returns are external; they are
modelled as `exec : Option Json → Except String (List FlowEvent)`, where
`Except.error` is any exception raised while building or draining the
stream and the argument is `args.get("input")`. -/

/-- One parsed line of the flow executor's progress stream. -/
structure FlowEvent where
  event : String
  text : String

/-- `result` accumulation: the loop appends `text_part` for `end_vertex`
events only. -/
def flowResultText (events : List FlowEvent) : String :=
  events.foldl (fun result e => if e.event == "end_vertex" then result ++ e.text else result) ""

/-- The externally visible effects of one `handle_function_call` invocation:
the `input` values passed to `build_flow` (one entry per executor
invocation), the `function_call_output` items sent on the upstream socket as
(call id, output text) pairs, and the number of `response.create` messages
sent. -/
structure ToolCallEffects where
  invocations : List (Option Json)
  outputs : List (String × String)
  responseCreates : Nat

/-- `handle_function_call`: parse the accumulated arguments
(`json.loads(function_call_args) if function_call_args else {}`), extract
`input`, invoke the executor; any exception is caught and converted into a
`function_call_output` whose text is `"Error executing flow: ..."`.  A parse
result that is not an object makes `args.get` raise (Python
`AttributeError`), which the same handler catches. -/
def handle_function_call (exec : Option Json → Except String (List FlowEvent))
    (call_id : String) (function_call_args : String) : ToolCallEffects :=
  match (if function_call_args.isEmpty then Except.ok (Json.obj [])
         else json_loads function_call_args) with
  | Except.error e =>
      { invocations := [], outputs := [(call_id, "Error executing flow: " ++ e)],
        responseCreates := 0 }
  | Except.ok (Json.str _) =>
      { invocations := [],
        outputs := [(call_id, "Error executing flow: " ++ "'str' object has no attribute 'get'")],
        responseCreates := 0 }
  | Except.ok (Json.obj fields) =>
      let input := jsonGet fields "input"
      match exec input with
      | Except.error e =>
          { invocations := [input], outputs := [(call_id, "Error executing flow: " ++ e)],
            responseCreates := 0 }
      | Except.ok events =>
          { invocations := [input], outputs := [(call_id, flowResultText events)],
            responseCreates := 1 }

/-- The `function_call_args += event.get("delta", "")` accumulation in
`forward_to_client` across a turn's `function_call_arguments.delta` events. -/
def accumulate_function_call_args (deltas : List String) : String :=
  deltas.foldl (fun acc d => acc ++ d) ""

/-- A `function_call_arguments.delta` sequence followed by
`function_call_arguments.done` with a pending function call tracked: the
`done` handler spawns exactly one `handle_function_call` task on the
accumulated buffer. -/
def run_tool_round_trip (exec : Option Json → Except String (List FlowEvent))
    (call_id : String) (deltas : List String) : ToolCallEffects :=
  handle_function_call exec call_id (accumulate_function_call_args deltas)

/-! ### Module globals and the client→upstream pump (`forward_to_openai`)

`use_elevenlabs` and `elevenlabs_voice` are module-level globals in
`voice_mode.py`, rebound via `global` statements; every session reads and
writes the same two cells. -/

structure VoiceGlobals where
  use_elevenlabs : Bool
  elevenlabs_voice : String

/-- The module-initialization values of the globals. -/
def initVoiceGlobals : VoiceGlobals :=
  { use_elevenlabs := false, elevenlabs_voice := "JBFqnCBsd6RMkjVDRZzb" }

/-- A decoded inbound client message, with the fields `forward_to_openai`
reads (`msg.get("audio", "")` defaults to the empty string). -/
structure ClientMsg where
  type : String
  audio : String
  enabled : Bool
  voice_id : String

/-- Messages sent on the upstream (OpenAI) socket by `forward_to_openai`. -/
inductive UpstreamSend where
  | audioAppend (audio : String)
  | sessionUpdate (modalities : List String) (voice : String)
  | passthrough (msg : ClientMsg)

/-- The `elevenlabs.config` branch body: rebinds both globals from the
message, computes a local `modalities` value from the new `use_elevenlabs`,
and sends a `session.update` whose `modalities` field is the hardcoded
literal `["text"]` (the computed local is returned here to record that it is
never used in the sent configuration). -/
def elevenlabs_config_update (enabled : Bool) (voiceId : String) :
    VoiceGlobals × List String × UpstreamSend :=
  let modalities := if enabled then ["text"] else ["text", "audio"]
  ({ use_elevenlabs := enabled, elevenlabs_voice := voiceId }, modalities,
    UpstreamSend.sessionUpdate ["text"] "echo")

/-- One iteration of the `forward_to_openai` loop on a received client
message.  Mirrors the control flow exactly: the `input_audio_buffer.append`
branch `continue`s on empty audio, otherwise sends the re-serialized append
and feeds the VAD queue; then a *separate* `if`/`else` either handles
`elevenlabs.config` or forwards the raw message text verbatim.  Returns the
new globals, the upstream sends, and the base64 strings put on `vad_queue`. -/
def forward_to_openai_step (g : VoiceGlobals) (msg : ClientMsg) :
    VoiceGlobals × List UpstreamSend × List String :=
  if msg.type == "input_audio_buffer.append" && msg.audio == "" then
    (g, [], [])
  else
    let firstSends : List UpstreamSend × List String :=
      if msg.type == "input_audio_buffer.append" then
        ([UpstreamSend.audioAppend msg.audio], [msg.audio])
      else ([], [])
    if msg.type == "elevenlabs.config" then
      let r := elevenlabs_config_update msg.enabled msg.voice_id
      (r.1, firstSends.1 ++ [r.2.2], firstSends.2)
    else
      (g, firstSends.1 ++ [UpstreamSend.passthrough msg], firstSends.2)

/-- The voice actually used by a TTS invocation (`run_tts` /
`_blocking_tts` read the module global `elevenlabs_voice`), for any session
reading the shared globals. -/
def run_tts_voice (g : VoiceGlobals) : String := g.elevenlabs_voice

/-- Counts an upstream send as an `input_audio_buffer.append` message: either
the explicitly constructed one or a verbatim passthrough of a client message
of that type. -/
def isAudioAppendUpstream : UpstreamSend → Bool
  | UpstreamSend.audioAppend _ => true
  | UpstreamSend.passthrough m => m.type == "input_audio_buffer.append"
  | UpstreamSend.sessionUpdate _ _ => false

/-- The `input_audio_buffer.append` client message exercising the
client→upstream pump. -/
def appendMsgAAAA : ClientMsg :=
  { type := "input_audio_buffer.append", audio := "AAAA", enabled := false, voice_id := "" }

/-- An `elevenlabs.config` client message selecting a non-default voice. -/
def configMsgCustomVoice : ClientMsg :=
  { type := "elevenlabs.config", audio := "", enabled := true, voice_id := "customVoice" }

/-! ## Helper lemmas -/

theorem int16sToBytes_length (xs : List Int) :
    (int16sToBytes xs).length = 2 * xs.length := by
  induction xs with
  | nil => rfl
  | cons x rest ih =>
      simp only [int16sToBytes, int16ToLeBytes, List.length_append, List.length_cons,
        List.length_nil, ih]
      omega

theorem scipy_signal_resample_length (xs : List Int) (num : Nat) :
    (scipy_signal_resample xs num).length = num := by
  simp [scipy_signal_resample]

theorem vadLeftover_lt_aux : ∀ (n : Nat) (acc : List Nat), acc.length ≤ n →
    (vadLeftover acc).length < BYTES_PER_24K_FRAME := by
  intro n
  induction n with
  | zero =>
      intro acc hlen
      have hb : BYTES_PER_24K_FRAME = 960 := rfl
      rw [vadLeftover, dif_neg (by omega)]
      omega
  | succ n ih =>
      intro acc hlen
      have hb : BYTES_PER_24K_FRAME = 960 := rfl
      by_cases h : BYTES_PER_24K_FRAME ≤ acc.length
      · rw [vadLeftover, dif_pos h]
        exact ih _ (by simp only [List.length_drop]; omega)
      · rw [vadLeftover, dif_neg h]
        omega

theorem vadLeftover_length_lt (acc : List Nat) :
    (vadLeftover acc).length < BYTES_PER_24K_FRAME :=
  vadLeftover_lt_aux acc.length acc le_rfl

theorem vadFrames_sizes_aux : ∀ (n : Nat) (acc : List Nat), acc.length ≤ n →
    ((vadFrames acc).all fun f => f.length == BYTES_PER_24K_FRAME) = true := by
  intro n
  induction n with
  | zero =>
      intro acc hlen
      have hb : BYTES_PER_24K_FRAME = 960 := rfl
      rw [vadFrames, dif_neg (by omega)]
      rfl
  | succ n ih =>
      intro acc hlen
      have hb : BYTES_PER_24K_FRAME = 960 := rfl
      by_cases h : BYTES_PER_24K_FRAME ≤ acc.length
      · rw [vadFrames, dif_pos h]
        rw [List.all_cons]
        have h1 : (acc.take BYTES_PER_24K_FRAME).length = BYTES_PER_24K_FRAME := by
          simp only [List.length_take]
          omega
        have h2 := ih (acc.drop BYTES_PER_24K_FRAME) (by simp only [List.length_drop]; omega)
        simp [h1, h2]
      · rw [vadFrames, dif_neg h]
        rfl

theorem vadFrames_sizes (acc : List Nat) :
    ((vadFrames acc).all fun f => f.length == BYTES_PER_24K_FRAME) = true :=
  vadFrames_sizes_aux acc.length acc le_rfl

theorem vadHasSpeech_step (classify : List Nat → Option Bool) (acc : List Nat) :
    vadHasSpeech classify acc =
      if BYTES_PER_24K_FRAME ≤ acc.length then
        (classify (acc.take BYTES_PER_24K_FRAME) == some true) ||
          vadHasSpeech classify (acc.drop BYTES_PER_24K_FRAME)
      else false := by
  unfold vadHasSpeech
  rw [vadFrames]
  by_cases h : BYTES_PER_24K_FRAME ≤ acc.length
  · rw [dif_pos h, if_pos h, List.any_cons]
  · rw [dif_neg h, if_neg h]
    rfl

theorem vadDrain_false_aux (classify : List Nat → Option Bool) :
    ∀ (n : Nat) (acc : List Nat), acc.length ≤ n →
      vadDrain classify acc false = (vadLeftover acc, false, 0) := by
  intro n
  induction n with
  | zero =>
      intro acc hlen
      have hb : BYTES_PER_24K_FRAME = 960 := rfl
      rw [vadDrain, vadLeftover, dif_neg (by omega), dif_neg (by omega)]
  | succ n ih =>
      intro acc hlen
      have hb : BYTES_PER_24K_FRAME = 960 := rfl
      by_cases h : BYTES_PER_24K_FRAME ≤ acc.length
      · have hrec := ih (acc.drop BYTES_PER_24K_FRAME)
          (by simp only [List.length_drop]; omega)
        rw [vadDrain, vadLeftover, dif_pos h, dif_pos h]
        cases hc : classify (acc.take BYTES_PER_24K_FRAME) with
        | none => simpa [hc] using hrec
        | some b =>
            cases b with
            | false => simpa [hc] using hrec
            | true => simpa [hc] using hrec
      · rw [vadDrain, vadLeftover, dif_neg h, dif_neg h]

theorem vadDrain_false (classify : List Nat → Option Bool) (acc : List Nat) :
    vadDrain classify acc false = (vadLeftover acc, false, 0) :=
  vadDrain_false_aux classify acc.length acc le_rfl

theorem vadDrain_true_aux (classify : List Nat → Option Bool) :
    ∀ (n : Nat) (acc : List Nat), acc.length ≤ n →
      vadDrain classify acc true =
        (vadLeftover acc, !vadHasSpeech classify acc,
          if vadHasSpeech classify acc then 1 else 0) := by
  intro n
  induction n with
  | zero =>
      intro acc hlen
      have hb : BYTES_PER_24K_FRAME = 960 := rfl
      rw [vadDrain, vadLeftover, vadHasSpeech_step,
        dif_neg (by omega), dif_neg (by omega), if_neg (by omega)]
      rfl
  | succ n ih =>
      intro acc hlen
      have hb : BYTES_PER_24K_FRAME = 960 := rfl
      by_cases h : BYTES_PER_24K_FRAME ≤ acc.length
      · have hrec := ih (acc.drop BYTES_PER_24K_FRAME)
          (by simp only [List.length_drop]; omega)
        rw [vadDrain, vadLeftover, vadHasSpeech_step, dif_pos h, dif_pos h, if_pos h]
        cases hc : classify (acc.take BYTES_PER_24K_FRAME) with
        | none => simpa [hc] using hrec
        | some b =>
            cases b with
            | false => simpa [hc] using hrec
            | true =>
                simp only [hc]
                rw [vadDrain_false]
                simp
      · rw [vadDrain, vadLeftover, vadHasSpeech_step,
          dif_neg h, dif_neg h, if_neg h]
        rfl

theorem vadDrain_spec (classify : List Nat → Option Bool) (acc : List Nat) (speaking : Bool) :
    vadDrain classify acc speaking =
      (vadLeftover acc, speaking && !vadHasSpeech classify acc,
        if speaking && vadHasSpeech classify acc then 1 else 0) := by
  cases speaking with
  | false => simp [vadDrain_false]
  | true => simp [vadDrain_true_aux classify acc.length acc le_rfl]

theorem handle_function_call_input_hi (exec : Option Json → Except String (List FlowEvent))
    (call_id : String) :
    handle_function_call exec call_id "\x7b\"input\":\"hi\"\x7d" =
      match exec (some (Json.str "hi")) with
      | Except.error err =>
          { invocations := [some (Json.str "hi")],
            outputs := [(call_id, "Error executing flow: " ++ err)], responseCreates := 0 }
      | Except.ok events =>
          { invocations := [some (Json.str "hi")],
            outputs := [(call_id, flowResultText events)], responseCreates := 1 } := rfl

/-! ## Claim theorems -/

/-- C1: for every VAD-processed audio frame classified as speech while the
session's speaking flag is true, exactly one `response.cancel` is emitted to
the upstream session per detected speech onset and the speaking flag is set
to false immediately; when the speaking flag is false, no cancellation is
emitted regardless of the VAD classification. -/
theorem C1_barge_in_cancellation (classify : List Nat → Option Bool)
    (buf chunk : List Nat) :
    (process_vad_audio_step classify ⟨buf, true⟩ chunk).2 =
        (if vadHasSpeech classify (buf ++ chunk) then 1 else 0) ∧
    (process_vad_audio_step classify ⟨buf, true⟩ chunk).1.bot_speaking_flag =
        !vadHasSpeech classify (buf ++ chunk) ∧
    (process_vad_audio_step classify ⟨buf, false⟩ chunk).2 = 0 ∧
    (process_vad_audio_step classify ⟨buf, false⟩ chunk).1.bot_speaking_flag = false := by
  simp [process_vad_audio_step, vadDrain_spec]

/-- C2: a `function_call_arguments.delta` sequence concatenating to
`{"input":"hi"}` followed by `done` (with a pending call tracked) makes
exactly one flow-executor invocation with input `"hi"` and sends exactly one
`function_call_output` with the matching call id, even if the executor
raises; an empty accumulated buffer behaves as the empty JSON object, and an
executor failure is converted into a `function_call_output` whose text
describes the error. -/
theorem C2_tool_round_trip (exec : Option Json → Except String (List FlowEvent))
    (call_id : String) (deltas : List String) (e : String)
    (h : accumulate_function_call_args deltas = "\x7b\"input\":\"hi\"\x7d") :
    (run_tool_round_trip exec call_id deltas).invocations = [some (Json.str "hi")] ∧
    (run_tool_round_trip exec call_id deltas).outputs.map Prod.fst = [call_id] ∧
    (run_tool_round_trip (fun _ => Except.error e) call_id deltas).outputs =
      [(call_id, "Error executing flow: " ++ e)] ∧
    handle_function_call exec call_id "" = handle_function_call exec call_id "\x7b\x7d" := by
  unfold run_tool_round_trip
  rw [h, handle_function_call_input_hi exec,
    handle_function_call_input_hi (fun _ => Except.error e)]
  refine ⟨?_, ?_, rfl, rfl⟩
  · cases exec (some (Json.str "hi")) <;> rfl
  · cases exec (some (Json.str "hi")) <;> rfl

/-- C2 witness: the concrete delta split `["\x7b\"input\"", ":\"hi\"\x7d"]` with a
failing executor. -/
theorem C2_tool_round_trip_witness :
    (run_tool_round_trip (fun _ => Except.error "boom") "call_1"
        ["\x7b\"input\"", ":\"hi\"\x7d"]).invocations = [some (Json.str "hi")] ∧
    (run_tool_round_trip (fun _ => Except.error "boom") "call_1"
        ["\x7b\"input\"", ":\"hi\"\x7d"]).outputs.map Prod.fst = ["call_1"] ∧
    (run_tool_round_trip (fun _ => Except.error "boom") "call_1"
        ["\x7b\"input\"", ":\"hi\"\x7d"]).outputs =
      [("call_1", "Error executing flow: " ++ "boom")] ∧
    handle_function_call (fun _ => Except.error "boom") "call_1" "" =
      handle_function_call (fun _ => Except.error "boom") "call_1" "\x7b\x7d" :=
  C2_tool_round_trip (fun _ => Except.error "boom") "call_1"
    ["\x7b\"input\"", ":\"hi\"\x7d"] "boom" (by rfl)

/-- C3 counterexample: the claimed example run does not yield two chunks. -/
theorem C3_two_chunks_false :
    (sync_text_chunker_run chunkerExampleEvents).length ≠ 2 := by decide

/-- C3 amended: feeding `["Hello", ",", " world", "."]` with no timeout gaps
and then end-of-stream yields exactly three chunks `"Hello, "`, `"  "` and
`"world. "`: the leading-space fragment `" world"` triggers the
boundary-first-character branch against an empty buffer and emits a
two-space chunk between the two boundary-terminated ones. -/
theorem C3_chunker_example_three_chunks :
    sync_text_chunker_run chunkerExampleEvents = ["Hello, ", "  ", "world. "] := by decide

/-- C4: evaluation of the client→upstream pump at the failing input: a
non-empty `input_audio_buffer.append` is sent upstream twice (the
reconstructed append plus the verbatim passthrough from the unguarded
`if`/`else` that should be an `elif`/`else`), while the audio is fed to the
VAD queue once. -/
theorem C4_append_forwarded_twice :
    ((forward_to_openai_step initVoiceGlobals appendMsgAAAA).2.1.countP
        isAudioAppendUpstream) = 2 ∧
    (forward_to_openai_step initVoiceGlobals appendMsgAAAA).2.2 = ["AAAA"] :=
  ⟨rfl, rfl⟩

/-- C5 counterexample: the resampler's output size is not
`len(frame)/2 * toRate/fromRate` for every well-formed frame: a 6-byte
(3-sample) frame yields 640 bytes, not 4. -/
theorem C5_target_count_formula_false :
    (resample_24k_to_16k (List.replicate 6 0)).length ≠ 6 / 2 * 16000 / 24000 * 2 := by
  decide

/-- C5 amended: `resample_24k_to_16k` always produces exactly 320 output
samples (2*320 bytes), the hardcoded second argument of `resample`,
regardless of the input frame's length; in particular a 2*480-byte frame at
24 kHz yields exactly 2*320 bytes. -/
theorem C5_resample_fixed_320_samples (frame : List Nat) :
    (resample_24k_to_16k frame).length = 2 * 320 := by
  unfold resample_24k_to_16k
  rw [int16sToBytes_length]
  simp [scipy_signal_resample_length]

/-- C6: the fragment `"partial"` followed by an idle timeout while the
buffer is non-empty yields exactly the chunk `"partial "` and resets the
buffer to empty. -/
theorem C6_timeout_flush :
    sync_text_chunker_process [ChunkEvent.fragment "partial", ChunkEvent.timeout] "" =
      (["partial "], "") := by decide

/-- C7: after any processing pass the VAD accumulator holds strictly fewer
bytes than one native frame (0..frameSize-1 leftover), and every frame
sliced for classification is exactly `BYTES_PER_24K_FRAME` bytes — partial
frames are never classified. -/
theorem C7_vad_accumulator_invariant (classify : List Nat → Option Bool)
    (st : VadState) (chunk : List Nat) :
    ((process_vad_audio_step classify st chunk).1.vad_audio_buffer).length
        < BYTES_PER_24K_FRAME ∧
    ((vadFrames (st.vad_audio_buffer ++ chunk)).all
        fun f => f.length == BYTES_PER_24K_FRAME) = true := by
  constructor
  · simp only [process_vad_audio_step, vadDrain_spec]
    exact vadLeftover_length_lt _
  · exact vadFrames_sizes _

/-- C8 counterexample: an empty fragment is not a no-op for every buffer
state: with buffer `"Hi,"` (ending in a boundary character) it emits a
chunk. -/
theorem C8_empty_fragment_not_noop :
    (sync_text_chunker_step "Hi," "").2 ≠ [] := by decide

/-- C8 amended: the chunker never raises, and an empty fragment emits no
chunk and leaves the buffer unchanged unless the buffer is non-empty and
ends in a boundary character, in which case the boundary branch flushes the
buffer (emitting it with a trailing space) and resets it to empty. -/
theorem C8_empty_fragment_behavior (buffer : String) :
    sync_text_chunker_step buffer "" =
      if !buffer.isEmpty && isSplitter buffer.back then ("", [buffer ++ " "])
      else (buffer, []) := by
  unfold sync_text_chunker_step
  by_cases h : (!buffer.isEmpty && isSplitter buffer.back) = true
  · simp [h]
  · simp only [if_neg h]
    rw [if_neg (by decide), String.append_empty]

/-- C9 counterexample: processing `elevenlabs.config` on one session changes
the voice a concurrent session's TTS invocation uses, because the backend
selection and voice are module globals shared by all sessions. -/
theorem C9_config_leaks_across_sessions :
    run_tts_voice (forward_to_openai_step initVoiceGlobals configMsgCustomVoice).1 ≠
      run_tts_voice initVoiceGlobals := by decide

/-- C9 amended: TTS backend selection and voice are process-wide module
globals: after any session processes `elevenlabs.config`, every session
reading the shared globals uses the message's voice and enabled flag. -/
theorem C9_tts_config_is_process_wide (g : VoiceGlobals) (enabled : Bool) (voiceId : String) :
    run_tts_voice (forward_to_openai_step g
        { type := "elevenlabs.config", audio := "", enabled := enabled,
          voice_id := voiceId }).1 = voiceId ∧
    (forward_to_openai_step g
        { type := "elevenlabs.config", audio := "", enabled := enabled,
          voice_id := voiceId }).1.use_elevenlabs = enabled :=
  ⟨rfl, rfl⟩

/-- C10: for every inbound `elevenlabs.config` message the re-sent
`session.update` declares modalities exactly `["text"]` regardless of
`enabled`; the locally computed modalities value (which would be
`["text", "audio"]` for `enabled = false`) is never used in the sent
configuration. -/
theorem C10_modalities_always_text (g : VoiceGlobals) (enabled : Bool) (voiceId : String) :
    (forward_to_openai_step g
        { type := "elevenlabs.config", audio := "", enabled := enabled,
          voice_id := voiceId }).2.1 =
      [UpstreamSend.sessionUpdate ["text"] "echo"] ∧
    (elevenlabs_config_update false voiceId).2.1 = ["text", "audio"] ∧
    (elevenlabs_config_update true voiceId).2.1 = ["text"] :=
  ⟨rfl, rfl, rfl⟩

end VoiceModeSpec
